import Mathlib

/-!
Verification of the Concordium x402 payment mechanism: a shallow embedding of
the facilitator schemes (`ExactConcordiumScheme`, `ExactConcordiumSchemeV1`),
the gRPC node-client adapter (`createConcordiumNodeClient`) and the standalone
`ConcordiumClient`, together with theorems about verification and settlement.
-/

/-- Transaction lifecycle status, from the `ConcordiumTransactionInfo` union
`"pending" | "committed" | "finalized" | "failed"`. -/
inductive TxStatus where
  | pending
  | committed
  | finalized
  | failed
deriving DecidableEq, Repr

/-- `ConcordiumTransactionInfo` from the facilitator scheme module: the
snapshot of a transaction returned by a node client.  Optional TypeScript
fields become `Option`. -/
structure ConcordiumTransactionInfo where
  txHash : String
  blockHash : String
  status : TxStatus
  sender : String
  recipient : Option String := none
  amount : Option String := none
  asset : Option String := none
  error : Option String := none
deriving DecidableEq, Repr

/-- JavaScript truthiness of an optional string field (`undefined` and `""`
are falsy; every other string is truthy). -/
def optTruthy : Option String → Bool
  | none => false
  | some s => s != ""

/-- ASCII lower-casing of a string, modelling JavaScript `toLowerCase` on the
base58 account addresses this package compares (structural recursion so that
concrete instances reduce). -/
def jsToLower (s : String) : String :=
  String.mk (s.data.map Char.toLower)

/-- Characters trimmed by JavaScript string-to-BigInt conversion. -/
def isJsSpace (c : Char) : Bool :=
  c == ' ' || c == '\t' || c == '\n' || c == '\r'

/-- Value of a non-empty list of decimal digits; `none` if the list is empty
or contains a non-digit. -/
def parseDecDigits? (cs : List Char) : Option Nat :=
  match cs with
  | [] => none
  | _ =>
    cs.foldl
      (fun acc c =>
        match acc with
        | none => none
        | some n => if c.isDigit then some (n * 10 + (c.toNat - 48)) else none)
      (some 0)

/-- Models the JavaScript `BigInt(string)` conversion on the string shapes this
package feeds it: surrounding whitespace is trimmed, the empty string converts
to `0`, an optional single sign followed by decimal digits converts to the
signed value, and any other string throws a `SyntaxError` (here: `none`). -/
def jsBigInt? (s : String) : Option Int :=
  match (((s.data.dropWhile isJsSpace).reverse.dropWhile isJsSpace).reverse : List Char) with
  | [] => some 0
  | '-' :: rest => (parseDecDigits? rest).map (fun n => -(n : Int))
  | '+' :: rest => (parseDecDigits? rest).map (fun n => (n : Int))
  | cs => (parseDecDigits? cs).map (fun n => (n : Int))

/-- The `accepted` part of a V2 `PaymentPayload` read by the scheme. -/
structure PaymentAccepted where
  scheme : String
  network : String
deriving DecidableEq, Repr

/-- V2 `PaymentPayload` restricted to the fields the Concordium facilitator
reads: the accepted scheme/network and the `ExactConcordiumPayloadV2` inner
payload (`txHash`, `sender`). -/
structure PaymentPayload where
  accepted : PaymentAccepted
  txHash : String
  sender : String
deriving DecidableEq, Repr

/-- V2 `PaymentRequirements` restricted to the fields the scheme reads. -/
structure PaymentRequirements where
  scheme : String
  network : String
  payTo : String
  amount : String
  asset : Option String := none
deriving DecidableEq, Repr

/-- V1 payload: scheme and network sit at top level, the inner payload is
`ExactConcordiumPayloadV1` (`txHash`, `sender`). -/
structure PaymentPayloadV1 where
  scheme : String
  network : String
  txHash : String
  sender : String
deriving DecidableEq, Repr

/-- V1 `PaymentRequirementsV1` restricted to the fields the scheme reads. -/
structure PaymentRequirementsV1 where
  scheme : String
  network : String
  payTo : String
  maxAmountRequired : String
  asset : Option String := none
deriving DecidableEq, Repr

/-- `VerifyResponse` returned by the facilitator. -/
structure VerifyResponse where
  isValid : Bool
  invalidReason : Option String
  payer : String
deriving DecidableEq, Repr

/-- `SettleResponse` returned by the facilitator. -/
structure SettleResponse where
  success : Bool
  network : String
  transaction : String
  errorReason : Option String := none
  payer : String
deriving DecidableEq, Repr

/-- Outcome of one `nodeClient.getTransactionStatus` call as observed by the
scheme: the promise rejected (`threw`), resolved to `null` (`missing`), or
resolved to a transaction snapshot (`found`). -/
inductive Lookup where
  | threw
  | missing
  | found (info : ConcordiumTransactionInfo)
deriving DecidableEq, Repr

/-- Environment standing for the injected `ConcordiumNodeClient`:
`statusResults n` is the outcome of the `n`-th `getTransactionStatus` call and
`waitResult` the outcome of a `waitForFinalization` call (`Except.error` for a
rejected promise). -/
structure NodeClient where
  statusResults : Nat → Lookup
  waitResult : Except Unit (Option ConcordiumTransactionInfo)

/-- `ExactConcordiumSchemeConfig` after constructor defaulting
(`requireFinalization ?? true`, `finalizationTimeoutMs ?? 60000`). -/
structure SchemeConfig where
  requireFinalization : Bool := true
  finalizationTimeoutMs : Nat := 60000
deriving DecidableEq, Repr

/-- Number of node-client calls an operation performed. -/
structure Calls where
  statusCalls : Nat := 0
  waitCalls : Nat := 0
deriving DecidableEq, Repr

/-- `ExactConcordiumScheme.verify` (V2 facilitator scheme): the chain of checks
over the payload, the requirements and the single on-chain lookup.  The
`Except` layer models an uncaught JavaScript exception escaping `verify` (the
`BigInt` conversions are the only code outside the try/catch that can throw);
the `Calls` component counts node-client calls made. -/
def ExactConcordiumScheme.verify (cfg : SchemeConfig) (client : NodeClient)
    (payload : PaymentPayload) (requirements : PaymentRequirements) :
    Except Unit VerifyResponse × Calls :=
  let payer := payload.sender
  if payload.accepted.scheme ≠ "exact" ∨ requirements.scheme ≠ "exact" then
    (Except.ok { isValid := false, invalidReason := some "unsupported_scheme", payer := payer },
      { statusCalls := 0, waitCalls := 0 })
  else if payload.accepted.network ≠ requirements.network then
    (Except.ok { isValid := false, invalidReason := some "network_mismatch", payer := payer },
      { statusCalls := 0, waitCalls := 0 })
  else
    match client.statusResults 0 with
    | Lookup.threw =>
      (Except.ok { isValid := false, invalidReason := some "transaction_lookup_failed", payer := payer },
        { statusCalls := 1, waitCalls := 0 })
    | Lookup.missing =>
      (Except.ok { isValid := false, invalidReason := some "transaction_not_found", payer := payer },
        { statusCalls := 1, waitCalls := 0 })
    | Lookup.found txInfo =>
      let assetResult : Except Unit VerifyResponse :=
        if txInfo.asset.isSome ∧ requirements.asset.getD "" ≠ txInfo.asset.getD "" then
          Except.ok { isValid := false, invalidReason := some "asset_mismatch", payer := payer }
        else
          Except.ok { isValid := true, invalidReason := none, payer := payer }
      let result : Except Unit VerifyResponse :=
        if txInfo.status = TxStatus.failed then
          Except.ok { isValid := false, invalidReason := some "transaction_failed", payer := payer }
        else if txInfo.status = TxStatus.pending then
          Except.ok { isValid := false, invalidReason := some "transaction_pending", payer := payer }
        else if cfg.requireFinalization = true ∧ txInfo.status ≠ TxStatus.finalized then
          Except.ok { isValid := false, invalidReason := some "transaction_not_finalized", payer := payer }
        else if txInfo.sender ≠ "" ∧ jsToLower txInfo.sender ≠ jsToLower payload.sender then
          Except.ok { isValid := false, invalidReason := some "sender_mismatch", payer := payer }
        else if optTruthy txInfo.recipient = true ∧
            jsToLower (txInfo.recipient.getD "") ≠ jsToLower requirements.payTo then
          Except.ok { isValid := false, invalidReason := some "recipient_mismatch", payer := payer }
        else if optTruthy txInfo.amount = true then
          match jsBigInt? (txInfo.amount.getD ""), jsBigInt? requirements.amount with
          | some txAmt, some reqAmt =>
            if txAmt < reqAmt then
              Except.ok { isValid := false, invalidReason := some "insufficient_amount", payer := payer }
            else assetResult
          | _, _ => Except.error ()
        else assetResult
      (result, { statusCalls := 1, waitCalls := 0 })

/-- `ExactConcordiumSchemeV1.verify` (V1 facilitator scheme).  Same check chain
as V2 except that an absent or empty snapshot amount itself fails with
`insufficient_amount` and the asset comparison runs unconditionally. -/
def ExactConcordiumSchemeV1.verify (cfg : SchemeConfig) (client : NodeClient)
    (payload : PaymentPayloadV1) (requirements : PaymentRequirementsV1) :
    Except Unit VerifyResponse × Calls :=
  let payer := payload.sender
  if payload.scheme ≠ "exact" ∨ requirements.scheme ≠ "exact" then
    (Except.ok { isValid := false, invalidReason := some "unsupported_scheme", payer := payer },
      { statusCalls := 0, waitCalls := 0 })
  else if payload.network ≠ requirements.network then
    (Except.ok { isValid := false, invalidReason := some "network_mismatch", payer := payer },
      { statusCalls := 0, waitCalls := 0 })
  else
    match client.statusResults 0 with
    | Lookup.threw =>
      (Except.ok { isValid := false, invalidReason := some "transaction_lookup_failed", payer := payer },
        { statusCalls := 1, waitCalls := 0 })
    | Lookup.missing =>
      (Except.ok { isValid := false, invalidReason := some "transaction_not_found", payer := payer },
        { statusCalls := 1, waitCalls := 0 })
    | Lookup.found txInfo =>
      let assetResult : Except Unit VerifyResponse :=
        if requirements.asset.getD "" ≠ txInfo.asset.getD "" then
          Except.ok { isValid := false, invalidReason := some "asset_mismatch", payer := payer }
        else
          Except.ok { isValid := true, invalidReason := none, payer := payer }
      let result : Except Unit VerifyResponse :=
        if txInfo.status = TxStatus.failed then
          Except.ok { isValid := false, invalidReason := some "transaction_failed", payer := payer }
        else if txInfo.status = TxStatus.pending then
          Except.ok { isValid := false, invalidReason := some "transaction_pending", payer := payer }
        else if cfg.requireFinalization = true ∧ txInfo.status ≠ TxStatus.finalized then
          Except.ok { isValid := false, invalidReason := some "transaction_not_finalized", payer := payer }
        else if txInfo.sender ≠ "" ∧ jsToLower txInfo.sender ≠ jsToLower payload.sender then
          Except.ok { isValid := false, invalidReason := some "sender_mismatch", payer := payer }
        else if optTruthy txInfo.recipient = true ∧
            jsToLower (txInfo.recipient.getD "") ≠ jsToLower requirements.payTo then
          Except.ok { isValid := false, invalidReason := some "recipient_mismatch", payer := payer }
        else if optTruthy txInfo.amount = false then
          Except.ok { isValid := false, invalidReason := some "insufficient_amount", payer := payer }
        else
          match jsBigInt? (txInfo.amount.getD ""), jsBigInt? requirements.maxAmountRequired with
          | some txAmt, some reqAmt =>
            if txAmt < reqAmt then
              Except.ok { isValid := false, invalidReason := some "insufficient_amount", payer := payer }
            else assetResult
          | _, _ => Except.error ()
      (result, { statusCalls := 1, waitCalls := 0 })

/-- `ExactConcordiumScheme.settle` (V2 facilitator scheme): verify first, then,
when finalization is required, one `waitForFinalization` call.  A rejected
promise inside `verify` is re-thrown by `settle` (`Except.error`). -/
def ExactConcordiumScheme.settle (cfg : SchemeConfig) (client : NodeClient)
    (payload : PaymentPayload) (requirements : PaymentRequirements) :
    Except Unit SettleResponse × Calls :=
  let vr := ExactConcordiumScheme.verify cfg client payload requirements
  match vr.1 with
  | Except.error e => (Except.error e, vr.2)
  | Except.ok verifyResult =>
    if verifyResult.isValid = false then
      (Except.ok { success := false, network := payload.accepted.network, transaction := payload.txHash, errorReason := some (verifyResult.invalidReason.getD "invalid_payment"), payer := payload.sender }, vr.2)
    else if cfg.requireFinalization = true then
      let calls : Calls := { vr.2 with waitCalls := vr.2.waitCalls + 1 }
      match client.waitResult with
      | Except.error _ =>
        (Except.ok { success := false, network := payload.accepted.network, transaction := payload.txHash, errorReason := some "finalization_failed", payer := payload.sender }, calls)
      | Except.ok none =>
        (Except.ok { success := false, network := payload.accepted.network, transaction := payload.txHash, errorReason := some "finalization_timeout", payer := payload.sender }, calls)
      | Except.ok (some finalizedTx) =>
        if finalizedTx.status ≠ TxStatus.finalized then
          (Except.ok { success := false, network := payload.accepted.network, transaction := payload.txHash, errorReason := some "finalization_timeout", payer := payload.sender }, calls)
        else
          (Except.ok { success := true, network := payload.accepted.network, transaction := payload.txHash, errorReason := none, payer := payload.sender }, calls)
    else
      (Except.ok { success := true, network := payload.accepted.network, transaction := payload.txHash, errorReason := none, payer := payload.sender }, vr.2)

/-- SDK block-item status tag (`"received" | "committed" | "finalized"`). -/
inductive SdkStatus where
  | received
  | committed
  | finalized
deriving DecidableEq, Repr

/-- `summary.result` of an SDK transaction summary: `outcome` is the string
`"success"` or `"reject"`. -/
structure SummaryResult where
  outcome : String
  rejectReason : Option String := none
deriving DecidableEq, Repr

/-- `summary.transfer` details of a native CCD transfer (`to` renamed `toAccount`: `to` is reserved in Lean). -/
structure TransferDetails where
  toAccount : String
  amount : String
deriving DecidableEq, Repr

/-- `summary.contractUpdate` details of a contract call (CIS-2 transfer);
the `events` list is not read by the code modelled here. -/
structure ContractUpdateDetails where
  address : String
  receiveName : String := ""
deriving DecidableEq, Repr

/-- `TransactionSummary` from the gRPC client module. -/
structure TransactionSummary where
  type : String := ""
  sender : String
  result : SummaryResult
  transfer : Option TransferDetails := none
  contractUpdate : Option ContractUpdateDetails := none
deriving DecidableEq, Repr

/-- `TransactionOutcome` from the gRPC client module. -/
structure TransactionOutcome where
  blockHash : Option String := none
  summary : Option TransactionSummary := none
deriving DecidableEq, Repr

/-- `BlockItemStatus` returned by `grpcClient.getBlockItemStatus`. -/
structure BlockItemStatus where
  status : SdkStatus
  outcome : Option TransactionOutcome := none
deriving DecidableEq, Repr

/-- `FinalizedTransaction` returned by the SDK push-subscription call
`grpcClient.waitForTransactionFinalization`. -/
structure FinalizedTransaction where
  blockHash : String
  summary : TransactionSummary
deriving DecidableEq, Repr

/-- `mapStatusEnum` from `grpc-node.client.ts`: a rejection in the outcome
summary wins over the raw status; otherwise `received` maps to `pending` and
`committed`/`finalized` map through. -/
def mapStatusEnum (sdkStatus : SdkStatus) (outcome : Option TransactionOutcome) : TxStatus :=
  if (outcome.bind (fun o => o.summary)).map (fun s => s.result.outcome) = some "reject" then
    TxStatus.failed
  else
    match sdkStatus with
    | SdkStatus.received => TxStatus.pending
    | SdkStatus.committed => TxStatus.committed
    | SdkStatus.finalized => TxStatus.finalized

/-- `mapTransactionStatus` from `grpc-node.client.ts`: builds a
`ConcordiumTransactionInfo` from an SDK `BlockItemStatus`. -/
def mapTransactionStatus (txHash : String) (status : BlockItemStatus) : ConcordiumTransactionInfo :=
  let base : ConcordiumTransactionInfo :=
    { txHash := txHash, blockHash := (status.outcome.bind (fun o => o.blockHash)).getD "", status := mapStatusEnum status.status status.outcome, sender := "" }
  match status.outcome.bind (fun o => o.summary) with
  | none => base
  | some summary =>
    let withSender := { base with sender := summary.sender }
    let afterReject :=
      if summary.result.outcome = "reject" then
        { withSender with status := TxStatus.failed, error := summary.result.rejectReason }
      else withSender
    let afterTransfer :=
      match summary.transfer with
      | some t => { afterReject with recipient := some t.toAccount, amount := some t.amount, asset := some "" }
      | none => afterReject
    match summary.contractUpdate with
    | some cu => { afterTransfer with asset := some cu.address }
    | none => afterTransfer

/-- `getTransactionStatus` of the client built by `createConcordiumNodeClient`,
as a function of the underlying `grpcClient.getBlockItemStatus` outcome
(`Except.error` standing for a rejected promise).  The surrounding try/catch
turns every transport error into `null`. -/
def nodeGetTransactionStatus (txHash : String)
    (grpcResult : Except Unit (Option BlockItemStatus)) : Option ConcordiumTransactionInfo :=
  match grpcResult with
  | Except.error _ => none
  | Except.ok none => none
  | Except.ok (some status) => some (mapTransactionStatus txHash status)

/-- The push-subscription path of `waitForFinalization` in
`createConcordiumNodeClient`, as a function of the resolved value of
`grpcClient.waitForTransactionFinalization`: the returned snapshot's status is
the literal `"finalized"`, whatever the summary contains. -/
def pushWaitResult (txHash : String) (result : Option FinalizedTransaction) :
    Option ConcordiumTransactionInfo :=
  match result with
  | none => none
  | some r =>
    some { txHash := txHash, blockHash := r.blockHash, status := TxStatus.finalized, sender := r.summary.sender, recipient := r.summary.transfer.map (fun t => t.toAccount), amount := r.summary.transfer.map (fun t => t.amount), asset := if r.summary.transfer.isSome then some "" else none }

/-- `pollForFinalization` from `createConcordiumNodeClient`: `polls` are the
successive `getTransactionStatus` results observed while the elapsed time is
below `timeoutMs`, and `lastLookup` is the result of the final
`getTransactionStatus` call performed after the loop times out (the code
comments this final call with "return last known status"). -/
def pollForFinalization (polls : List (Option ConcordiumTransactionInfo))
    (lastLookup : Option ConcordiumTransactionInfo) : Option ConcordiumTransactionInfo :=
  match polls with
  | [] => lastLookup
  | none :: _ => none
  | some status :: rest =>
    if status.status = TxStatus.finalized then some status
    else if status.status = TxStatus.failed then some status
    else pollForFinalization rest lastLookup

/-- SDK account address object (`{ address: string }`) as read by
`ConcordiumClient.getTransactionStatus`. -/
structure SdkAccountAddress where
  address : String
deriving DecidableEq, Repr

/-- SDK CCD amount object (`{ microCcdAmount: bigint }`). -/
structure SdkCcdAmount where
  microCcdAmount : Nat
deriving DecidableEq, Repr

/-- SDK transfer view (`{ to: { address }, amount: { microCcdAmount } }`; `to` renamed `toAccount`). -/
structure SdkTransferView where
  toAccount : SdkAccountAddress
  amount : SdkCcdAmount
deriving DecidableEq, Repr

/-- SDK summary view as dereferenced by `ConcordiumClient.getTransactionStatus`
(`s.outcome?.summary?...`); the `result` field is carried by the SDK object but
never read by that method. -/
structure SdkSummaryView where
  sender : Option SdkAccountAddress := none
  transfer : Option SdkTransferView := none
  result : Option SummaryResult := none
deriving DecidableEq, Repr

/-- SDK outcome view (`{ summary?: ... }`). -/
structure SdkOutcomeView where
  summary : Option SdkSummaryView := none
deriving DecidableEq, Repr

/-- SDK block-item status as consumed by `ConcordiumClient`. -/
structure SdkBlockItemStatusView where
  status : SdkStatus
  outcome : Option SdkOutcomeView := none
deriving DecidableEq, Repr

/-- `TransactionInfo` from `concordium.client.ts`. -/
structure TransactionInfo where
  txHash : String
  status : TxStatus
  sender : String
  recipient : Option String := none
  amount : Option String := none
  error : Option String := none
deriving DecidableEq, Repr

/-- `ConcordiumClient.getTransactionStatus` from `concordium.client.ts`, as a
function of the `getBlockItemStatus` result: a missing block status yields a
`pending` record with empty sender/recipient/amount, and the status mapping
reads only the raw status tag (the rejection information inside
`outcome.summary.result` is never consulted). -/
def ConcordiumClient.getTransactionStatus (txHash : String)
    (blockStatus : Option SdkBlockItemStatusView) : TransactionInfo :=
  match blockStatus with
  | none =>
    { txHash := txHash, status := TxStatus.pending, sender := "", recipient := some "", amount := some "" }
  | some s =>
    let summary := s.outcome.bind (fun o => o.summary)
    let sender := ((summary.bind (fun m => m.sender)).map (fun a => a.address)).getD ""
    let recipient := ((summary.bind (fun m => m.transfer)).map (fun t => t.toAccount.address)).getD ""
    let amount := ((summary.bind (fun m => m.transfer)).map (fun t => toString t.amount.microCcdAmount)).getD ""
    let status :=
      match s.status with
      | SdkStatus.finalized => TxStatus.finalized
      | SdkStatus.committed => TxStatus.committed
      | SdkStatus.received => TxStatus.pending
    { txHash := txHash, status := status, sender := sender, recipient := some recipient, amount := some amount }

/-- `ConcordiumClient.waitForFinalization`: `polls` are the successive
`getTransactionStatus` results observed while the elapsed time is below the
timeout (that method never returns `null`, so the loop's `!info` early return
is dead), and `lastLookup` is the final lookup performed after timeout. -/
def ConcordiumClient.waitForFinalization (polls : List TransactionInfo)
    (lastLookup : TransactionInfo) : Option TransactionInfo :=
  match polls with
  | [] => some lastLookup
  | info :: rest =>
    if info.status = TxStatus.finalized ∨ info.status = TxStatus.failed then some info
    else ConcordiumClient.waitForFinalization rest lastLookup

/-- Scans an ordered list of checks, each a failure flag paired with its
failure reason, and returns the reason of the first failing check
(short-circuit), or `none` when every check passes.  Spec-side device for the
fixed-check-order refinement claim. -/
def firstFailingReason : List (Bool × String) → Option String
  | [] => none
  | (condFailed, reason) :: rest =>
    if condFailed then some reason else firstFailingReason rest

/-- Amount check failure flag: the snapshot amount, read as a JavaScript
BigInt, is strictly below the required amount (false when either string does
not convert). -/
def jsAmountLt (a b : String) : Bool :=
  match jsBigInt? a, jsBigInt? b with
  | some x, some y => decide (x < y)
  | _, _ => false

/-- Spec-side ordered snapshot checks of the V2 matcher, from the spec's fixed
order: failed state, pending state, finalization requirement, sender,
recipient, amount, asset.  Empty when no snapshot was found (the earlier
existence check already failed). -/
def specTxCheckList (cfg : SchemeConfig) (lookup : Lookup) (p : PaymentPayload)
    (r : PaymentRequirements) : List (Bool × String) :=
  match lookup with
  | Lookup.found info =>
    [ (decide (info.status = TxStatus.failed), "transaction_failed"),
      (decide (info.status = TxStatus.pending), "transaction_pending"),
      (decide (cfg.requireFinalization = true ∧ info.status ≠ TxStatus.finalized), "transaction_not_finalized"),
      (decide (info.sender ≠ "" ∧ jsToLower info.sender ≠ jsToLower p.sender), "sender_mismatch"),
      (decide (optTruthy info.recipient = true ∧ jsToLower (info.recipient.getD "") ≠ jsToLower r.payTo), "recipient_mismatch"),
      (optTruthy info.amount && jsAmountLt (info.amount.getD "") r.amount, "insufficient_amount"),
      (info.asset.isSome && decide (r.asset.getD "" ≠ info.asset.getD ""), "asset_mismatch") ]
  | _ => []

/-- Spec-side ordered check list of the V2 coordinator: scheme tag, network,
lookup transport failure, snapshot existence, then the snapshot checks. -/
def specCheckList (cfg : SchemeConfig) (lookup : Lookup) (p : PaymentPayload)
    (r : PaymentRequirements) : List (Bool × String) :=
  [ (decide (p.accepted.scheme ≠ "exact" ∨ r.scheme ≠ "exact"), "unsupported_scheme"),
    (decide (p.accepted.network ≠ r.network), "network_mismatch"),
    (decide (lookup = Lookup.threw), "transaction_lookup_failed"),
    (decide (lookup = Lookup.missing), "transaction_not_found") ]
  ++ specTxCheckList cfg lookup p r

/-- Spec-side ordered snapshot checks of the V1 matcher: as V2 except that a
non-truthy amount fails `insufficient_amount` and the asset check is
unconditional. -/
def specTxCheckListV1 (cfg : SchemeConfig) (lookup : Lookup) (p : PaymentPayloadV1)
    (r : PaymentRequirementsV1) : List (Bool × String) :=
  match lookup with
  | Lookup.found info =>
    [ (decide (info.status = TxStatus.failed), "transaction_failed"),
      (decide (info.status = TxStatus.pending), "transaction_pending"),
      (decide (cfg.requireFinalization = true ∧ info.status ≠ TxStatus.finalized), "transaction_not_finalized"),
      (decide (info.sender ≠ "" ∧ jsToLower info.sender ≠ jsToLower p.sender), "sender_mismatch"),
      (decide (optTruthy info.recipient = true ∧ jsToLower (info.recipient.getD "") ≠ jsToLower r.payTo), "recipient_mismatch"),
      (!optTruthy info.amount || jsAmountLt (info.amount.getD "") r.maxAmountRequired, "insufficient_amount"),
      (decide (r.asset.getD "" ≠ info.asset.getD ""), "asset_mismatch") ]
  | _ => []

/-- Spec-side ordered check list of the V1 coordinator. -/
def specCheckListV1 (cfg : SchemeConfig) (lookup : Lookup) (p : PaymentPayloadV1)
    (r : PaymentRequirementsV1) : List (Bool × String) :=
  [ (decide (p.scheme ≠ "exact" ∨ r.scheme ≠ "exact"), "unsupported_scheme"),
    (decide (p.network ≠ r.network), "network_mismatch"),
    (decide (lookup = Lookup.threw), "transaction_lookup_failed"),
    (decide (lookup = Lookup.missing), "transaction_not_found") ]
  ++ specTxCheckListV1 cfg lookup p r

set_option maxHeartbeats 2000000 in
/-- C1: for every payload/requirements pair, `verify` evaluates its checks in
the fixed order scheme, network, lookup/existence, failed, pending,
finalization requirement, sender, recipient, amount, asset; it short-circuits
at the first failing check, whose reason it reports, and returns
`isValid = true` with no reason exactly when every check passes (stated for
the V2 and the V1 facilitator scheme). -/
theorem verify_checks_fixed_order :
    (∀ (cfg : SchemeConfig) (client : NodeClient) (p : PaymentPayload)
        (r : PaymentRequirements) (res : VerifyResponse),
        (ExactConcordiumScheme.verify cfg client p r).1 = Except.ok res →
        res.invalidReason = firstFailingReason (specCheckList cfg (client.statusResults 0) p r) ∧
        (res.isValid = true ↔ res.invalidReason = none) ∧
        res.payer = p.sender) ∧
    (∀ (cfg : SchemeConfig) (client : NodeClient) (p : PaymentPayloadV1)
        (r : PaymentRequirementsV1) (res : VerifyResponse),
        (ExactConcordiumSchemeV1.verify cfg client p r).1 = Except.ok res →
        res.invalidReason = firstFailingReason (specCheckListV1 cfg (client.statusResults 0) p r) ∧
        (res.isValid = true ↔ res.invalidReason = none) ∧
        res.payer = p.sender) := by
  constructor
  · intro cfg client p r res h
    simp only [ExactConcordiumScheme.verify] at h
    repeat' split at h
    all_goals
      simp_all [specCheckList, specTxCheckList, firstFailingReason, jsAmountLt]
    all_goals try subst h
    all_goals try (split_ifs <;> simp_all)
    all_goals first | simp_all | omega
  · intro cfg client p r res h
    simp only [ExactConcordiumSchemeV1.verify] at h
    repeat' split at h
    all_goals
      simp_all [specCheckListV1, specTxCheckListV1, firstFailingReason, jsAmountLt]
    all_goals try subst h
    all_goals try (split_ifs <;> simp_all)
    all_goals first | simp_all | omega

/-- Concrete passing snapshot used to instantiate theorems: finalized native
CCD transfer matching the concrete payload and requirements below. -/
def wInfo : ConcordiumTransactionInfo :=
  { txHash := "tx1", blockHash := "b1", status := TxStatus.finalized, sender := "Alice", recipient := some "Merchant", amount := some "1000000", asset := some "" }

/-- Node client resolving every lookup with `wInfo` and finalizing on wait. -/
def wClient : NodeClient :=
  { statusResults := fun _ => Lookup.found wInfo, waitResult := Except.ok (some wInfo) }

/-- Concrete payload matching `wInfo` (sender differs only in case). -/
def wPayload : PaymentPayload :=
  { accepted := { scheme := "exact", network := "ccd:test" }, txHash := "tx1", sender := "alice" }

/-- Concrete requirements matched by `wInfo`. -/
def wReq : PaymentRequirements :=
  { scheme := "exact", network := "ccd:test", payTo := "merchant", amount := "1000000", asset := some "" }

/-- Witness for the fixed-check-order theorem: on the concrete passing input
the verify outcome is valid and its reason agrees with the spec-side ordered
check list. -/
theorem verify_checks_fixed_order_witness :
    (ExactConcordiumScheme.verify {} wClient wPayload wReq).1 =
      Except.ok { isValid := true, invalidReason := none, payer := "alice" } ∧
    ({ isValid := true, invalidReason := none, payer := "alice" } : VerifyResponse).invalidReason =
      firstFailingReason (specCheckList {} (wClient.statusResults 0) wPayload wReq) := by
  refine ⟨rfl, ?_⟩
  exact (verify_checks_fixed_order.1 {} wClient wPayload wReq
    { isValid := true, invalidReason := none, payer := "alice" } rfl).1

/-- Helper: the V2 `verify` makes no `waitForFinalization` call and at most
one status lookup, whatever the inputs. -/
theorem verify_call_trace (cfg : SchemeConfig) (client : NodeClient)
    (p : PaymentPayload) (r : PaymentRequirements) :
    (ExactConcordiumScheme.verify cfg client p r).2.waitCalls = 0 ∧
    (ExactConcordiumScheme.verify cfg client p r).2.statusCalls ≤ 1 := by
  by_cases h1 : p.accepted.scheme ≠ "exact" ∨ r.scheme ≠ "exact"
  · simp [ExactConcordiumScheme.verify, h1]
  · by_cases h2 : p.accepted.network ≠ r.network
    · simp [ExactConcordiumScheme.verify, h1, h2]
    · cases hl : client.statusResults 0 <;>
        simp [ExactConcordiumScheme.verify, h1, h2, hl]

/-- C9 (amended): `verify` never calls `waitForFinalization` and performs at
most one ledger status lookup — exactly one as soon as the scheme and network
checks pass; when finalization is required and the looked-up snapshot is
committed, it returns `transaction_not_finalized` instead of blocking. -/
theorem verify_single_lookup_nonblocking :
    (∀ (cfg : SchemeConfig) (client : NodeClient) (p : PaymentPayload) (r : PaymentRequirements),
       (ExactConcordiumScheme.verify cfg client p r).2.waitCalls = 0 ∧
       (ExactConcordiumScheme.verify cfg client p r).2.statusCalls ≤ 1) ∧
    (∀ (cfg : SchemeConfig) (client : NodeClient) (p : PaymentPayload) (r : PaymentRequirements),
       p.accepted.scheme = "exact" → r.scheme = "exact" → p.accepted.network = r.network →
       (ExactConcordiumScheme.verify cfg client p r).2.statusCalls = 1) ∧
    (∀ (cfg : SchemeConfig) (client : NodeClient) (p : PaymentPayload)
        (r : PaymentRequirements) (info : ConcordiumTransactionInfo),
       cfg.requireFinalization = true →
       client.statusResults 0 = Lookup.found info →
       info.status = TxStatus.committed →
       p.accepted.scheme = "exact" → r.scheme = "exact" → p.accepted.network = r.network →
       (ExactConcordiumScheme.verify cfg client p r).1 =
         Except.ok { isValid := false, invalidReason := some "transaction_not_finalized", payer := p.sender }) := by
  refine ⟨fun cfg client p r => verify_call_trace cfg client p r, ?_, ?_⟩
  · intro cfg client p r h1 h2 h3
    cases hl : client.statusResults 0 <;>
      simp [ExactConcordiumScheme.verify, h1, h2, h3, hl]
  · intro cfg client p r info hf hl hs h1 h2 h3
    simp [ExactConcordiumScheme.verify, h1, h2, h3, hl, hs, hf]

/-- C9 counterexample: with a scheme-tag mismatch `verify` returns before the
lookup, performing zero ledger status lookups rather than exactly one. -/
theorem verify_zero_lookups_on_scheme_mismatch :
    (ExactConcordiumScheme.verify {} wClient
      { accepted := { scheme := "other", network := "ccd:test" }, txHash := "tx1", sender := "alice" }
      wReq).2.statusCalls = 0 := rfl

/-- Snapshot still `committed`, used for the non-blocking-verify witness. -/
def wCommittedInfo : ConcordiumTransactionInfo :=
  { wInfo with status := TxStatus.committed }

/-- Node client whose lookups observe the committed snapshot. -/
def wCommittedClient : NodeClient :=
  { statusResults := fun _ => Lookup.found wCommittedInfo, waitResult := Except.ok none }

/-- Witness for the single-lookup/non-blocking theorem on concrete inputs. -/
theorem verify_single_lookup_nonblocking_witness :
    (ExactConcordiumScheme.verify {} wClient wPayload wReq).2.statusCalls = 1 ∧
    (ExactConcordiumScheme.verify {} wCommittedClient wPayload wReq).1 =
      Except.ok { isValid := false, invalidReason := some "transaction_not_finalized", payer := "alice" } := by
  constructor
  · exact verify_single_lookup_nonblocking.2.1 {} wClient wPayload wReq rfl rfl rfl
  · exact verify_single_lookup_nonblocking.2.2 {} wCommittedClient wPayload wReq
      wCommittedInfo rfl rfl rfl rfl rfl rfl

/-- C3: `settle` runs `verify` first; an invalid verify is mirrored into a
failed settlement carrying the verification failure reason with no wait call;
a valid verify settles immediately when finalization is not required; when it
is required, a rejected wait yields `finalization_failed`, an absent or
non-finalized wait result yields `finalization_timeout`, and a finalized one
yields success carrying the transaction id and payer. -/
theorem settle_behavior (cfg : SchemeConfig) (client : NodeClient)
    (p : PaymentPayload) (r : PaymentRequirements) (v : VerifyResponse)
    (hv : (ExactConcordiumScheme.verify cfg client p r).1 = Except.ok v) :
    (v.isValid = false →
      (ExactConcordiumScheme.settle cfg client p r).1 =
        Except.ok { success := false, network := p.accepted.network, transaction := p.txHash, errorReason := some (v.invalidReason.getD "invalid_payment"), payer := p.sender } ∧
      (ExactConcordiumScheme.settle cfg client p r).2.waitCalls = 0) ∧
    (v.isValid = true → cfg.requireFinalization = false →
      (ExactConcordiumScheme.settle cfg client p r).1 =
        Except.ok { success := true, network := p.accepted.network, transaction := p.txHash, errorReason := none, payer := p.sender }) ∧
    (v.isValid = true → cfg.requireFinalization = true →
      (client.waitResult = Except.error () →
        (ExactConcordiumScheme.settle cfg client p r).1 =
          Except.ok { success := false, network := p.accepted.network, transaction := p.txHash, errorReason := some "finalization_failed", payer := p.sender }) ∧
      (client.waitResult = Except.ok none →
        (ExactConcordiumScheme.settle cfg client p r).1 =
          Except.ok { success := false, network := p.accepted.network, transaction := p.txHash, errorReason := some "finalization_timeout", payer := p.sender }) ∧
      (∀ ftx, client.waitResult = Except.ok (some ftx) → ftx.status ≠ TxStatus.finalized →
        (ExactConcordiumScheme.settle cfg client p r).1 =
          Except.ok { success := false, network := p.accepted.network, transaction := p.txHash, errorReason := some "finalization_timeout", payer := p.sender }) ∧
      (∀ ftx, client.waitResult = Except.ok (some ftx) → ftx.status = TxStatus.finalized →
        (ExactConcordiumScheme.settle cfg client p r).1 =
          Except.ok { success := true, network := p.accepted.network, transaction := p.txHash, errorReason := none, payer := p.sender })) := by
  have hw := (verify_call_trace cfg client p r).1
  refine ⟨?_, ?_, ?_⟩
  · intro hinval
    constructor
    · simp [ExactConcordiumScheme.settle, hv, hinval]
    · simp [ExactConcordiumScheme.settle, hv, hinval, hw]
  · intro hval hnf
    simp [ExactConcordiumScheme.settle, hv, hval, hnf]
  · intro hval hf
    refine ⟨?_, ?_, ?_, ?_⟩
    · intro hwr
      simp [ExactConcordiumScheme.settle, hv, hval, hf, hwr]
    · intro hwr
      simp [ExactConcordiumScheme.settle, hv, hval, hf, hwr]
    · intro ftx hwr hst
      simp [ExactConcordiumScheme.settle, hv, hval, hf, hwr, hst]
    · intro ftx hwr hst
      simp [ExactConcordiumScheme.settle, hv, hval, hf, hwr, hst]

/-- Witness for the settle theorem: the concrete passing scenario settles
successfully, carrying the transaction id and payer. -/
theorem settle_behavior_witness :
    (ExactConcordiumScheme.settle {} wClient wPayload wReq).1 =
      Except.ok { success := true, network := "ccd:test", transaction := "tx1", errorReason := none, payer := "alice" } := by
  exact ((settle_behavior {} wClient wPayload wReq
    { isValid := true, invalidReason := none, payer := "alice" } rfl).2.2 rfl rfl).2.2.2 wInfo rfl rfl

/-- Snapshot whose amount string is not numeric. -/
def badAmountInfo : ConcordiumTransactionInfo :=
  { wInfo with amount := some "not-a-number" }

/-- Node client observing the malformed-amount snapshot. -/
def badAmountClient : NodeClient :=
  { statusResults := fun _ => Lookup.found badAmountInfo, waitResult := Except.ok (some badAmountInfo) }

/-- C4: on an otherwise valid payment whose snapshot carries the non-numeric
amount string "not-a-number", the `BigInt` conversion inside the amount check
throws out of `verify`, and `settle` re-throws it: neither returns a
structured outcome. -/
theorem verify_throws_on_malformed_amount :
    (ExactConcordiumScheme.verify {} badAmountClient wPayload wReq).1 = Except.error () ∧
    (ExactConcordiumScheme.settle {} badAmountClient wPayload wReq).1 = Except.error () :=
  ⟨rfl, rfl⟩

/-- Snapshot with the amount field absent. -/
def absentAmountInfo : ConcordiumTransactionInfo :=
  { wInfo with amount := none }

/-- Node client observing the amount-less snapshot. -/
def absentAmountClient : NodeClient :=
  { statusResults := fun _ => Lookup.found absentAmountInfo, waitResult := Except.ok none }

/-- Concrete V1 payload matching `wInfo`. -/
def wPayloadV1 : PaymentPayloadV1 :=
  { scheme := "exact", network := "concordium", txHash := "tx1", sender := "alice" }

/-- Concrete V1 requirements matched by `wInfo`. -/
def wReqV1 : PaymentRequirementsV1 :=
  { scheme := "exact", network := "concordium", payTo := "merchant", maxAmountRequired := "1000000", asset := some "" }

/-- C5 counterexample: in the V1 facilitator scheme a snapshot with an absent
amount is itself rejected with `insufficient_amount` — absence is a failure,
the amount check is not skipped. -/
theorem verifyV1_rejects_absent_amount :
    (ExactConcordiumSchemeV1.verify {} absentAmountClient wPayloadV1 wReqV1).1 =
      Except.ok { isValid := false, invalidReason := some "insufficient_amount", payer := "alice" } := rfl

set_option maxHeartbeats 2000000 in
/-- C5 (amended): in the V2 scheme a non-truthy (absent or empty) snapshot
amount skips the amount check and can never produce `insufficient_amount`; a
truthy amount is compared to the required amount as arbitrary-precision
integers — strictly less fails `insufficient_amount`, greater-or-equal passes
on to the asset check; in the V1 scheme a non-truthy snapshot amount itself
fails `insufficient_amount`. -/
theorem amount_check_semantics :
    (∀ (cfg : SchemeConfig) (client : NodeClient) (p : PaymentPayload)
        (r : PaymentRequirements) (res : VerifyResponse) (info : ConcordiumTransactionInfo),
       client.statusResults 0 = Lookup.found info →
       optTruthy info.amount = false →
       (ExactConcordiumScheme.verify cfg client p r).1 = Except.ok res →
       res.invalidReason ≠ some "insufficient_amount") ∧
    (∀ (cfg : SchemeConfig) (client : NodeClient) (p : PaymentPayload)
        (r : PaymentRequirements) (info : ConcordiumTransactionInfo) (txAmt reqAmt : Int),
       client.statusResults 0 = Lookup.found info →
       p.accepted.scheme = "exact" → r.scheme = "exact" → p.accepted.network = r.network →
       info.status = TxStatus.finalized →
       (info.sender = "" ∨ jsToLower info.sender = jsToLower p.sender) →
       (optTruthy info.recipient = false ∨ jsToLower (info.recipient.getD "") = jsToLower r.payTo) →
       optTruthy info.amount = true →
       jsBigInt? (info.amount.getD "") = some txAmt →
       jsBigInt? r.amount = some reqAmt →
       ((txAmt < reqAmt →
          (ExactConcordiumScheme.verify cfg client p r).1 =
            Except.ok { isValid := false, invalidReason := some "insufficient_amount", payer := p.sender }) ∧
        (reqAmt ≤ txAmt →
          (ExactConcordiumScheme.verify cfg client p r).1 =
            (if info.asset.isSome = true ∧ r.asset.getD "" ≠ info.asset.getD "" then
              Except.ok { isValid := false, invalidReason := some "asset_mismatch", payer := p.sender }
            else
              Except.ok { isValid := true, invalidReason := none, payer := p.sender })))) ∧
    (∀ (cfg : SchemeConfig) (client : NodeClient) (p : PaymentPayloadV1)
        (r : PaymentRequirementsV1) (info : ConcordiumTransactionInfo),
       client.statusResults 0 = Lookup.found info →
       p.scheme = "exact" → r.scheme = "exact" → p.network = r.network →
       info.status = TxStatus.finalized →
       (info.sender = "" ∨ jsToLower info.sender = jsToLower p.sender) →
       (optTruthy info.recipient = false ∨ jsToLower (info.recipient.getD "") = jsToLower r.payTo) →
       optTruthy info.amount = false →
       (ExactConcordiumSchemeV1.verify cfg client p r).1 =
         Except.ok { isValid := false, invalidReason := some "insufficient_amount", payer := p.sender }) := by
  refine ⟨?_, ?_, ?_⟩
  · intro cfg client p r res info hl hf h
    simp only [ExactConcordiumScheme.verify] at h
    repeat' split at h
    all_goals simp_all
    all_goals try subst h
    all_goals simp
  · intro cfg client p r info txAmt reqAmt hl h1 h2 h3 hst hsend hrec htr hja hjb
    constructor
    · intro hlt
      rcases hsend with hs | hs <;> rcases hrec with hr | hr <;>
        simp [ExactConcordiumScheme.verify, hl, h1, h2, h3, hst, hs, hr, htr, hja, hjb, hlt]
    · intro hge
      rcases hsend with hs | hs <;> rcases hrec with hr | hr <;>
        simp [ExactConcordiumScheme.verify, hl, h1, h2, h3, hst, hs, hr, htr, hja, hjb, not_lt.mpr hge]
  · intro cfg client p r info hl h1 h2 h3 hst hsend hrec htr
    rcases hsend with hs | hs <;> rcases hrec with hr | hr <;>
      simp [ExactConcordiumSchemeV1.verify, hl, h1, h2, h3, hst, hs, hr, htr]

/-- Snapshot paying strictly less than required. -/
def lowAmountInfo : ConcordiumTransactionInfo :=
  { wInfo with amount := some "500000" }

/-- Node client observing the under-paying snapshot. -/
def lowAmountClient : NodeClient :=
  { statusResults := fun _ => Lookup.found lowAmountInfo, waitResult := Except.ok none }

/-- Witness for the amount-semantics theorem: the concrete under-payment fails
`insufficient_amount` in V2, and the concrete amount-less snapshot fails
`insufficient_amount` in V1. -/
theorem amount_check_semantics_witness :
    (ExactConcordiumScheme.verify {} lowAmountClient wPayload wReq).1 =
      Except.ok { isValid := false, invalidReason := some "insufficient_amount", payer := "alice" } ∧
    (ExactConcordiumSchemeV1.verify {} absentAmountClient wPayloadV1 wReqV1).1 =
      Except.ok { isValid := false, invalidReason := some "insufficient_amount", payer := "alice" } := by
  constructor
  · exact (amount_check_semantics.2.1 {} lowAmountClient wPayload wReq lowAmountInfo 500000 1000000
      rfl rfl rfl rfl rfl (Or.inr rfl) (Or.inr rfl) rfl rfl rfl).1 (by decide)
  · exact amount_check_semantics.2.2 {} absentAmountClient wPayloadV1 wReqV1 absentAmountInfo
      rfl rfl rfl rfl rfl (Or.inr rfl) (Or.inr rfl) rfl

/-- Snapshot with no asset field at all. -/
def noAssetInfo : ConcordiumTransactionInfo :=
  { wInfo with asset := none }

/-- Node client observing the asset-less snapshot. -/
def noAssetClient : NodeClient :=
  { statusResults := fun _ => Lookup.found noAssetInfo, waitResult := Except.ok none }

/-- V2 requirements naming a non-empty (CIS-2) asset. -/
def tokenReq : PaymentRequirements :=
  { wReq with asset := some "9390:0:tok" }

/-- C6 counterexample: in the V2 scheme a snapshot without an asset field
passes verification even against a requirement naming a non-empty asset — the
asset check is skipped entirely, no `asset_mismatch` is reported. -/
theorem verify_skips_asset_check_when_absent :
    (ExactConcordiumScheme.verify {} noAssetClient wPayload tokenReq).1 =
      Except.ok { isValid := true, invalidReason := none, payer := "alice" } := rfl

set_option maxHeartbeats 2000000 in
/-- C6 (amended): in the V2 scheme the asset comparison runs only when the
snapshot carries an asset field — an absent snapshot asset skips the check
and can never produce `asset_mismatch`, while a present asset (empty string
meaning native) is compared for exact equality with the requirement asset
(absent or empty meaning native); in the V1 scheme the comparison is
unconditional, so a non-empty requirement asset against an absent snapshot
asset fails with `asset_mismatch`. -/
theorem asset_check_semantics :
    (∀ (cfg : SchemeConfig) (client : NodeClient) (p : PaymentPayload)
        (r : PaymentRequirements) (res : VerifyResponse) (info : ConcordiumTransactionInfo),
       client.statusResults 0 = Lookup.found info →
       info.asset = none →
       (ExactConcordiumScheme.verify cfg client p r).1 = Except.ok res →
       res.invalidReason ≠ some "asset_mismatch") ∧
    (∀ (cfg : SchemeConfig) (client : NodeClient) (p : PaymentPayload)
        (r : PaymentRequirements) (info : ConcordiumTransactionInfo) (s : String),
       client.statusResults 0 = Lookup.found info →
       p.accepted.scheme = "exact" → r.scheme = "exact" → p.accepted.network = r.network →
       info.status = TxStatus.finalized →
       (info.sender = "" ∨ jsToLower info.sender = jsToLower p.sender) →
       (optTruthy info.recipient = false ∨ jsToLower (info.recipient.getD "") = jsToLower r.payTo) →
       optTruthy info.amount = false →
       info.asset = some s →
       ((r.asset.getD "" ≠ s →
          (ExactConcordiumScheme.verify cfg client p r).1 =
            Except.ok { isValid := false, invalidReason := some "asset_mismatch", payer := p.sender }) ∧
        (r.asset.getD "" = s →
          (ExactConcordiumScheme.verify cfg client p r).1 =
            Except.ok { isValid := true, invalidReason := none, payer := p.sender }))) ∧
    (∀ (cfg : SchemeConfig) (client : NodeClient) (p : PaymentPayloadV1)
        (r : PaymentRequirementsV1) (info : ConcordiumTransactionInfo) (txAmt reqAmt : Int),
       client.statusResults 0 = Lookup.found info →
       p.scheme = "exact" → r.scheme = "exact" → p.network = r.network →
       info.status = TxStatus.finalized →
       (info.sender = "" ∨ jsToLower info.sender = jsToLower p.sender) →
       (optTruthy info.recipient = false ∨ jsToLower (info.recipient.getD "") = jsToLower r.payTo) →
       optTruthy info.amount = true →
       jsBigInt? (info.amount.getD "") = some txAmt →
       jsBigInt? r.maxAmountRequired = some reqAmt →
       reqAmt ≤ txAmt →
       ((r.asset.getD "" ≠ info.asset.getD "" →
          (ExactConcordiumSchemeV1.verify cfg client p r).1 =
            Except.ok { isValid := false, invalidReason := some "asset_mismatch", payer := p.sender }) ∧
        (r.asset.getD "" = info.asset.getD "" →
          (ExactConcordiumSchemeV1.verify cfg client p r).1 =
            Except.ok { isValid := true, invalidReason := none, payer := p.sender }))) := by
  refine ⟨?_, ?_, ?_⟩
  · intro cfg client p r res info hl ha h
    simp only [ExactConcordiumScheme.verify] at h
    repeat' split at h
    all_goals simp_all
    all_goals try subst h
    all_goals simp
  · intro cfg client p r info s hl h1 h2 h3 hst hsend hrec htr ha
    constructor
    · intro hne
      rcases hsend with hs | hs <;> rcases hrec with hr | hr <;>
        simp [ExactConcordiumScheme.verify, hl, h1, h2, h3, hst, hs, hr, htr, ha, hne]
    · intro heq
      rcases hsend with hs | hs <;> rcases hrec with hr | hr <;>
        simp [ExactConcordiumScheme.verify, hl, h1, h2, h3, hst, hs, hr, htr, ha, heq]
  · intro cfg client p r info txAmt reqAmt hl h1 h2 h3 hst hsend hrec htr hja hjb hge
    constructor
    · intro hne
      rcases hsend with hs | hs <;> rcases hrec with hr | hr <;>
        simp [ExactConcordiumSchemeV1.verify, hl, h1, h2, h3, hst, hs, hr, htr, hja, hjb, not_lt.mpr hge, hne]
    · intro heq
      rcases hsend with hs | hs <;> rcases hrec with hr | hr <;>
        simp [ExactConcordiumSchemeV1.verify, hl, h1, h2, h3, hst, hs, hr, htr, hja, hjb, not_lt.mpr hge, heq]

/-- V1 requirements naming a non-empty (CIS-2) asset. -/
def tokenReqV1 : PaymentRequirementsV1 :=
  { wReqV1 with asset := some "9390:0:tok" }

/-- Witness for the asset-semantics theorem: the concrete empty-asset snapshot
matches the empty-asset requirement in V2, and in V1 the concrete asset-less
snapshot fails `asset_mismatch` against a non-empty requirement asset. -/
theorem asset_check_semantics_witness :
    (ExactConcordiumScheme.verify {} absentAmountClient wPayload wReq).1 =
      Except.ok { isValid := true, invalidReason := none, payer := "alice" } ∧
    (ExactConcordiumSchemeV1.verify {} noAssetClient wPayloadV1 tokenReqV1).1 =
      Except.ok { isValid := false, invalidReason := some "asset_mismatch", payer := "alice" } := by
  constructor
  · exact (asset_check_semantics.2.1 {} absentAmountClient wPayload wReq absentAmountInfo ""
      rfl rfl rfl rfl rfl (Or.inr rfl) (Or.inr rfl) rfl rfl).2 rfl
  · exact (asset_check_semantics.2.2 {} noAssetClient wPayloadV1 tokenReqV1 noAssetInfo
      1000000 1000000 rfl rfl rfl rfl rfl (Or.inr rfl) (Or.inr rfl) rfl rfl rfl (by decide)).1 (by decide)

/-- Committed (non-terminal) snapshot used in the polling counterexample. -/
def committedInfo : ConcordiumTransactionInfo :=
  { wInfo with status := TxStatus.committed }

/-- C7 counterexample: when every poll inside the timeout budget observes a
non-terminal committed snapshot, `pollForFinalization` performs a final lookup
and returns that stale non-terminal snapshot instead of absent; the standalone
`ConcordiumClient.waitForFinalization` behaves the same way. -/
theorem poll_timeout_returns_stale_snapshot :
    pollForFinalization [some committedInfo] (some committedInfo) = some committedInfo ∧
    ConcordiumClient.waitForFinalization
      [{ txHash := "t", status := TxStatus.committed, sender := "" }]
      { txHash := "t", status := TxStatus.committed, sender := "" } =
      some { txHash := "t", status := TxStatus.committed, sender := "" } :=
  ⟨rfl, rfl⟩

/-- C7 (amended): the polling loops return the first terminal snapshot
observed inside the timeout budget, return absent as soon as a lookup reports
no record, and when the timeout elapses with only non-terminal observations
they return the result of one final lookup — possibly a stale non-terminal
snapshot. -/
theorem poll_finalization_behavior :
    (∀ (polls : List (Option ConcordiumTransactionInfo)) (last : Option ConcordiumTransactionInfo)
        (info : ConcordiumTransactionInfo),
       info.status = TxStatus.finalized ∨ info.status = TxStatus.failed →
       pollForFinalization (some info :: polls) last = some info) ∧
    (∀ (polls : List (Option ConcordiumTransactionInfo)) (last : Option ConcordiumTransactionInfo),
       pollForFinalization (none :: polls) last = none) ∧
    (∀ (polls : List (Option ConcordiumTransactionInfo)) (last : Option ConcordiumTransactionInfo),
       (∀ s ∈ polls, ∃ i, s = some i ∧ i.status ≠ TxStatus.finalized ∧ i.status ≠ TxStatus.failed) →
       pollForFinalization polls last = last) ∧
    (∀ (polls : List TransactionInfo) (last : TransactionInfo),
       (∀ i ∈ polls, i.status ≠ TxStatus.finalized ∧ i.status ≠ TxStatus.failed) →
       ConcordiumClient.waitForFinalization polls last = some last) := by
  refine ⟨?_, ?_, ?_, ?_⟩
  · intro polls last info h
    rcases h with h | h <;> simp [pollForFinalization, h]
  · intro polls last
    simp [pollForFinalization]
  · intro polls last h
    induction polls with
    | nil => simp [pollForFinalization]
    | cons s rest ih =>
      obtain ⟨i, rfl, hnf, hnl⟩ := h s (by simp)
      simp [pollForFinalization, hnf, hnl]
      exact ih (fun x hx => h x (by simp [hx]))
  · intro polls last h
    induction polls with
    | nil => simp [ConcordiumClient.waitForFinalization]
    | cons i rest ih =>
      obtain ⟨hnf, hnl⟩ := h i (by simp)
      simp [ConcordiumClient.waitForFinalization, hnf, hnl]
      exact ih (fun x hx => h x (by simp [hx]))

/-- Witness for the polling-behavior theorem: a finalized observation is
returned at once, and an all-committed poll sequence falls through to the
final lookup. -/
theorem poll_finalization_behavior_witness :
    pollForFinalization [some wInfo] none = some wInfo ∧
    pollForFinalization [some committedInfo] none = none := by
  constructor
  · exact poll_finalization_behavior.1 [] none wInfo (Or.inl rfl)
  · exact poll_finalization_behavior.2.2.1 [some committedInfo] none
      (by intro s hs; simp at hs; exact ⟨committedInfo, hs, by decide, by decide⟩)

/-- The scheme-side view of a node-client promise that resolves without
throwing: a `null` resolution is observed as `missing`, a snapshot as
`found`. -/
def lookupOfResolved (o : Option ConcordiumTransactionInfo) : Lookup :=
  match o with
  | none => Lookup.missing
  | some i => Lookup.found i

/-- C8 counterexample: `createConcordiumNodeClient.getTransactionStatus`
swallows a transport error (a rejected `getBlockItemStatus` promise) and
resolves with `null`, so a verify running over that client reports the
transport error as `transaction_not_found`, conflating it with the no-record
case instead of reporting `transaction_lookup_failed`. -/
theorem transport_error_conflated_with_not_found :
    nodeGetTransactionStatus "tx1" (Except.error ()) = none ∧
    (ExactConcordiumScheme.verify {}
      { statusResults := fun _ => lookupOfResolved (nodeGetTransactionStatus "tx1" (Except.error ())),
        waitResult := Except.ok none }
      wPayload wReq).1 =
      Except.ok { isValid := false, invalidReason := some "transaction_not_found", payer := "alice" } :=
  ⟨rfl, rfl⟩

/-- C8 (amended): `verify` itself keeps the two cases distinct — a lookup that
throws yields `transaction_lookup_failed` and an absent lookup result yields
`transaction_not_found` — but the grpc-node client's `getTransactionStatus`
never throws: it catches transport errors and resolves with `null`, so through
that client a transport error surfaces as `transaction_not_found`. -/
theorem lookup_failure_distinction :
    (∀ (cfg : SchemeConfig) (client : NodeClient) (p : PaymentPayload) (r : PaymentRequirements),
       p.accepted.scheme = "exact" → r.scheme = "exact" → p.accepted.network = r.network →
       client.statusResults 0 = Lookup.threw →
       (ExactConcordiumScheme.verify cfg client p r).1 =
         Except.ok { isValid := false, invalidReason := some "transaction_lookup_failed", payer := p.sender }) ∧
    (∀ (cfg : SchemeConfig) (client : NodeClient) (p : PaymentPayload) (r : PaymentRequirements),
       p.accepted.scheme = "exact" → r.scheme = "exact" → p.accepted.network = r.network →
       client.statusResults 0 = Lookup.missing →
       (ExactConcordiumScheme.verify cfg client p r).1 =
         Except.ok { isValid := false, invalidReason := some "transaction_not_found", payer := p.sender }) ∧
    (∀ tx : String, nodeGetTransactionStatus tx (Except.error ()) = none) := by
  refine ⟨?_, ?_, ?_⟩
  · intro cfg client p r h1 h2 h3 hl
    simp [ExactConcordiumScheme.verify, h1, h2, h3, hl]
  · intro cfg client p r h1 h2 h3 hl
    simp [ExactConcordiumScheme.verify, h1, h2, h3, hl]
  · intro tx
    rfl

/-- Node client whose lookup promise rejects. -/
def throwingClient : NodeClient :=
  { statusResults := fun _ => Lookup.threw, waitResult := Except.ok none }

/-- Node client whose lookup resolves with `null`. -/
def missingClient : NodeClient :=
  { statusResults := fun _ => Lookup.missing, waitResult := Except.ok none }

/-- Witness for the lookup-distinction theorem on concrete clients. -/
theorem lookup_failure_distinction_witness :
    (ExactConcordiumScheme.verify {} throwingClient wPayload wReq).1 =
      Except.ok { isValid := false, invalidReason := some "transaction_lookup_failed", payer := "alice" } ∧
    (ExactConcordiumScheme.verify {} missingClient wPayload wReq).1 =
      Except.ok { isValid := false, invalidReason := some "transaction_not_found", payer := "alice" } := by
  constructor
  · exact lookup_failure_distinction.1 {} throwingClient wPayload wReq rfl rfl rfl rfl
  · exact lookup_failure_distinction.2.1 {} missingClient wPayload wReq rfl rfl rfl rfl

/-- C2 counterexample: a committed raw status whose outcome summary carries a
rejection is reported as `committed` by `ConcordiumClient.getTransactionStatus`
and the push path of `waitForFinalization` labels a rejected summary
`finalized` — on those paths rejection does not win. -/
theorem rejection_ignored_on_some_paths :
    (ConcordiumClient.getTransactionStatus "tx"
      (some { status := SdkStatus.committed, outcome := some { summary := some { sender := some { address := "a" }, transfer := none, result := some { outcome := "reject", rejectReason := some "InsufficientFunds" } } } })).status =
      TxStatus.committed ∧
    (pushWaitResult "tx"
      (some { blockHash := "b", summary := { type := "", sender := "a", result := { outcome := "reject", rejectReason := some "OutOfEnergy" }, transfer := none, contractUpdate := none } })).map (fun i => i.status) =
      some TxStatus.finalized :=
  ⟨rfl, rfl⟩

/-- C2 (amended): a rejection in the outcome summary forces `failed` in the
grpc-node client's status mapping (`mapStatusEnum` and `mapTransactionStatus`,
hence also its polling fallback), whatever the raw status; but the
push-subscription path of `waitForFinalization` labels its result `finalized`
regardless of the summary, and `ConcordiumClient.getTransactionStatus` maps
only the raw status tag and never reports `failed`. -/
theorem rejection_status_mapping :
    (∀ (st : SdkStatus) (bh : Option String) (ts : TransactionSummary) (rr : Option String),
       mapStatusEnum st (some { blockHash := bh, summary := some { ts with result := { outcome := "reject", rejectReason := rr } } }) =
         TxStatus.failed) ∧
    (∀ (tx : String) (st : SdkStatus) (bh : Option String) (ts : TransactionSummary) (rr : Option String),
       (mapTransactionStatus tx { status := st, outcome := some { blockHash := bh, summary := some { ts with result := { outcome := "reject", rejectReason := rr } } } }).status =
         TxStatus.failed) ∧
    (∀ (tx : String) (r : FinalizedTransaction),
       (pushWaitResult tx (some r)).map (fun i => i.status) = some TxStatus.finalized) ∧
    (∀ (tx : String) (s : SdkBlockItemStatusView),
       (ConcordiumClient.getTransactionStatus tx (some s)).status ≠ TxStatus.failed) := by
  refine ⟨?_, ?_, ?_, ?_⟩
  · intro st bh ts rr
    simp [mapStatusEnum]
  · intro tx st bh ts rr
    cases htr : ts.transfer <;> cases hcu : ts.contractUpdate <;>
      simp [mapTransactionStatus, mapStatusEnum, htr, hcu]
  · intro tx r
    simp [pushWaitResult]
  · intro tx s
    cases hst : s.status <;> simp [ConcordiumClient.getTransactionStatus, hst]

set_option maxHeartbeats 2000000 in
/-- C10: `ConcordiumClient.getTransactionStatus` always returns a snapshot
whose status is pending, committed or finalized — never `failed` (rejections
are ignored) and never absent: an unknown transaction yields a pending
snapshot with empty sender, recipient and amount; consequently a verify whose
lookup always finds a snapshot with a non-failed status can report neither
`transaction_not_found` nor `transaction_failed`. -/
theorem cc_client_never_failed_never_absent :
    (∀ (tx : String) (bs : Option SdkBlockItemStatusView),
       (ConcordiumClient.getTransactionStatus tx bs).status ≠ TxStatus.failed) ∧
    (∀ tx : String, ConcordiumClient.getTransactionStatus tx none =
       { txHash := tx, status := TxStatus.pending, sender := "", recipient := some "", amount := some "", error := none }) ∧
    (∀ (cfg : SchemeConfig) (client : NodeClient) (p : PaymentPayload)
        (r : PaymentRequirements) (res : VerifyResponse) (info : ConcordiumTransactionInfo),
       client.statusResults 0 = Lookup.found info →
       info.status ≠ TxStatus.failed →
       (ExactConcordiumScheme.verify cfg client p r).1 = Except.ok res →
       res.invalidReason ≠ some "transaction_not_found" ∧
       res.invalidReason ≠ some "transaction_failed") := by
  refine ⟨?_, ?_, ?_⟩
  · intro tx bs
    cases bs with
    | none => simp [ConcordiumClient.getTransactionStatus]
    | some s => cases hst : s.status <;> simp [ConcordiumClient.getTransactionStatus, hst]
  · intro tx
    rfl
  · intro cfg client p r res info hl hnf h
    simp only [ExactConcordiumScheme.verify] at h
    repeat' split at h
    all_goals simp_all
    all_goals try subst h
    all_goals simp

/-- Witness for the ConcordiumClient status-range theorem: on the concrete
passing scenario the verify verdict is neither `transaction_not_found` nor
`transaction_failed`. -/
theorem cc_client_never_failed_never_absent_witness :
    ({ isValid := true, invalidReason := none, payer := "alice" } : VerifyResponse).invalidReason ≠
      some "transaction_not_found" ∧
    ({ isValid := true, invalidReason := none, payer := "alice" } : VerifyResponse).invalidReason ≠
      some "transaction_failed" := by
  exact cc_client_never_failed_never_absent.2.2 {} wClient wPayload wReq
    { isValid := true, invalidReason := none, payer := "alice" } wInfo rfl (by decide) rfl
